import Mathlib

/-!
Shallow embedding of src/src/vulkan/vulkan-device.cpp (nvrhi Vulkan device layer):
capability negotiation (queryFeatureSupport), queue slots (getNativeQueue,
executeCommandLists), heap creation (createHeap), per-format usage
classification (queryFormatSupport), sparse-texture tiling arithmetic
(getTextureTiling) and idle-wait error conversion (waitForIdle).

Machine integers of the source (uint32_t) are modelled as Nat with explicit
reduction modulo 2^32 where the source arithmetic can wrap.  Enumerant types
that live in headers outside the embedded translation unit (Format,
ObjectType, FormatSupport bits, vk flag bits, struct byte sizes) are modelled
as Nat constants; only their distinctness and identity matter to the theorems
below, never the particular numeric values.
-/

/-- Severity of a diagnostic message sent through the message callback
(MessageSeverity in the nvrhi interface). -/
inductive MessageSeverity where
  | info
  | warning
  | error
deriving DecidableEq, Repr

/-- Kind of diagnostic emitted by the code paths embedded here.  The
allocationFailure kind carries the debug name and the native result code that
the source formats into the error string (lines 710-714 of the source). -/
inductive DiagKind where
  | ommWithoutSync2
  | pipelineCacheFailure
  | descriptorSetLayoutFailure
  | unsupportedOperation
  | invalidEnum
  | allocationFailure (debugName : String) (resultCode : Int)
deriving DecidableEq, Repr

/-- One diagnostic message: severity plus payload kind. -/
structure Diag where
  severity : MessageSeverity
  kind : DiagKind
deriving DecidableEq, Repr

/-- Modelled from the spec: the utility helpers NotSupported and InvalidEnum
live in nvrhi common code outside src/.  Per the spec (section 7) a size
mismatch or unimplemented capability reports an UnsupportedOperation
diagnostic and an unrecognized heap type reports an InvalidEnum diagnostic. -/
def notSupportedDiag : Diag := ⟨MessageSeverity.error, DiagKind.unsupportedOperation⟩

/-- Modelled from the spec: the InvalidEnum diagnostic emitted by utils
InvalidEnum for an unrecognized enumerant (spec section 7). -/
def invalidEnumDiag : Diag := ⟨MessageSeverity.error, DiagKind.invalidEnum⟩

/-- The extension boolean flags of VulkanContext.extensions that the embedded
code reads (vulkan-backend.h declares them; the constructor sets them). -/
structure Extensions where
  EXT_conservative_rasterization : Bool := false
  EXT_opacity_micromap : Bool := false
  KHR_acceleration_structure : Bool := false
  buffer_device_address : Bool := false
  KHR_fragment_shading_rate : Bool := false
  KHR_ray_query : Bool := false
  KHR_ray_tracing_pipeline : Bool := false
  KHR_synchronization2 : Bool := false
  NV_mesh_shader : Bool := false
  NV_ray_tracing_invocation_reorder : Bool := false
  NV_cluster_acceleration_structure : Bool := false
  EXT_mutable_descriptor_type : Bool := false
  NV_cooperative_vector : Bool := false
deriving DecidableEq, Repr

/-- The slice of VulkanContext state read by the embedded member functions:
extension flags and the cached property/feature query results.
reorderingHintIsReorder models the comparison of the cached
rayTracingInvocationReorderReorderingHint against eReorder (line 357). -/
structure VulkanContext where
  extensions : Extensions := {}
  reorderingHintIsReorder : Bool := false
  shadingRateTexelWidth : Nat := 0
  shadingRateTexelHeight : Nat := 0
  attachmentFragmentShadingRate : Bool := false
  subgroupSize : Nat := 0
  coopVecInference : Bool := false
  coopVecTraining : Bool := false
deriving DecidableEq, Repr

/-- One populated queue slot.  vkQueue is the native handle.  lastSubmittedID
is modelled from the spec: Queue lives in vulkan-queue.cpp, which is not part
of the embedded sources; the spec (sections 3 and 4.7) describes it as holding
a monotonically increasing per-queue submission counter. -/
structure QueueState where
  vkQueue : Nat
  lastSubmittedID : Nat
deriving DecidableEq, Repr

/-- CommandQueue enumerant Graphics = 0. -/
def CommandQueue_Graphics : Nat := 0
/-- CommandQueue enumerant Compute = 1. -/
def CommandQueue_Compute : Nat := 1
/-- CommandQueue enumerant Copy = 2. -/
def CommandQueue_Copy : Nat := 2
/-- CommandQueue enumerant Count = 3. -/
def CommandQueue_Count : Nat := 3

/-- The Device state read by the embedded member functions: the context slice
and the three m_Queues slots (the std array of unique_ptr is unrolled into
three Option fields; an empty Option models a null unique_ptr). -/
structure Device where
  ctx : VulkanContext
  graphicsQueue : Option QueueState := none
  computeQueue : Option QueueState := none
  copyQueue : Option QueueState := none
deriving DecidableEq, Repr

/-- Indexing m_Queues[q]: slot for queue kind q, none outside the array. -/
def Device.queueSlot (dev : Device) (q : Nat) : Option QueueState :=
  if q = CommandQueue_Graphics then dev.graphicsQueue
  else if q = CommandQueue_Compute then dev.computeQueue
  else if q = CommandQueue_Copy then dev.copyQueue
  else none

/-- Writing m_Queues[q] (used to model the submission counter update). -/
def Device.setQueueSlot (dev : Device) (q : Nat) (s : Option QueueState) : Device :=
  if q = CommandQueue_Graphics then { dev with graphicsQueue := s }
  else if q = CommandQueue_Compute then { dev with computeQueue := s }
  else if q = CommandQueue_Copy then { dev with copyQueue := s }
  else dev

/-- The slice of DeviceDesc that the embedded constructor logic reads: the
three optional native queue handles (desc.graphicsQueue, desc.computeQueue,
desc.transferQueue).  A some value models a non-null native handle. -/
structure DeviceDesc where
  graphicsQueue : Option Nat := none
  computeQueue : Option Nat := none
  transferQueue : Option Nat := none
deriving DecidableEq, Repr

/-- Queue-slot population performed by the Device constructor (source lines
58-74): each of the three slots is constructed exactly when the corresponding
native handle in the descriptor is non-null.  The initial submission counter
is modelled from the spec (implementation-defined first value; zero here). -/
def mkDevice (ctx : VulkanContext) (desc : DeviceDesc) : Device :=
  { ctx := ctx
    graphicsQueue := desc.graphicsQueue.map (fun h => ⟨h, 0⟩)
    computeQueue := desc.computeQueue.map (fun h => ⟨h, 0⟩)
    copyQueue := desc.transferQueue.map (fun h => ⟨h, 0⟩) }

/-- Diagnostics emitted by the Device constructor after extension parsing, in
source order (default build configuration, without RTXMU or Aftermath): the
opacity-micromap-without-synchronization2 warning (lines 206-210), then an
error if pipeline-cache creation failed (lines 246-249), then an error if the
empty descriptor-set-layout creation failed (lines 259-262). -/
def constructorDiags (ctx : VulkanContext) (pipelineCacheOk emptyLayoutOk : Bool) : List Diag :=
  (if ctx.extensions.EXT_opacity_micromap && !ctx.extensions.KHR_synchronization2 then
      [⟨MessageSeverity.warning, DiagKind.ommWithoutSync2⟩]
    else [])
  ++ (if pipelineCacheOk then [] else [⟨MessageSeverity.error, DiagKind.pipelineCacheFailure⟩])
  ++ (if emptyLayoutOk then [] else [⟨MessageSeverity.error, DiagKind.descriptorSetLayoutFailure⟩])

/-- The Feature enumerants handled by the switch in queryFeatureSupport
(source lines 335-415); other stands for every enumerant that reaches the
default arm. -/
inductive Feature where
  | DeferredCommandLists
  | RayTracingAccelStruct
  | RayTracingPipeline
  | RayTracingOpacityMicromap
  | RayQuery
  | ShaderExecutionReordering
  | RayTracingClusters
  | ShaderSpecializations
  | Meshlets
  | VariableRateShading
  | ConservativeRasterization
  | VirtualResources
  | ComputeQueue
  | CopyQueue
  | ConstantBufferRanges
  | WaveLaneCountMinMax
  | HeapDirectlyIndexed
  | CooperativeVectorInferencing
  | CooperativeVectorTraining
  | other (n : Nat)
deriving DecidableEq, Repr

/-- Byte size of VariableRateShadingFeatureInfo (declared in the nvrhi header,
one 32-bit field); stands in for the sizeof comparison at line 370.  Only
equality against the caller-supplied size matters. -/
def sizeofVariableRateShadingFeatureInfo : Nat := 4

/-- Byte size of WaveLaneCountMinMaxFeatureInfo (declared in the nvrhi header,
two 32-bit fields); stands in for the sizeof comparison at line 395. -/
def sizeofWaveLaneCountMinMaxFeatureInfo : Nat := 8

/-- Data written through the pInfo output buffer by queryFeatureSupport. -/
inductive FeatureWrite where
  | vrsInfo (shadingRateImageTileSize : Nat)
  | waveInfo (minWaveLaneCount maxWaveLaneCount : Nat)
deriving DecidableEq, Repr

/-- The observable outcome of one queryFeatureSupport call: the returned
boolean, the data written through the output buffer (none when the buffer is
absent or left untouched), and the diagnostics emitted during the call. -/
structure QueryResult where
  ret : Bool
  written : Option FeatureWrite
  diags : List Diag
deriving DecidableEq, Repr

/-- Device member queryFeatureSupport (source lines 335-415, default build
without RTXMU).  pInfo models the output buffer: none for a null pointer,
some sz for a non-null pointer with infoSize sz. -/
def queryFeatureSupport (dev : Device) (feature : Feature) (pInfo : Option Nat) : QueryResult :=
  match feature with
  | Feature.DeferredCommandLists => ⟨true, none, []⟩
  | Feature.RayTracingAccelStruct => ⟨dev.ctx.extensions.KHR_acceleration_structure, none, []⟩
  | Feature.RayTracingPipeline => ⟨dev.ctx.extensions.KHR_ray_tracing_pipeline, none, []⟩
  | Feature.RayTracingOpacityMicromap =>
      ⟨dev.ctx.extensions.EXT_opacity_micromap && dev.ctx.extensions.KHR_synchronization2,
        none, []⟩
  | Feature.RayQuery => ⟨dev.ctx.extensions.KHR_ray_query, none, []⟩
  | Feature.ShaderExecutionReordering =>
      if dev.ctx.extensions.NV_ray_tracing_invocation_reorder then
        ⟨dev.ctx.reorderingHintIsReorder, none, []⟩
      else ⟨false, none, []⟩
  | Feature.RayTracingClusters => ⟨dev.ctx.extensions.NV_cluster_acceleration_structure, none, []⟩
  | Feature.ShaderSpecializations => ⟨true, none, []⟩
  | Feature.Meshlets => ⟨dev.ctx.extensions.NV_mesh_shader, none, []⟩
  | Feature.VariableRateShading =>
      let ret := dev.ctx.extensions.KHR_fragment_shading_rate && dev.ctx.attachmentFragmentShadingRate
      match pInfo with
      | some sz =>
          if sz = sizeofVariableRateShadingFeatureInfo then
            ⟨ret, some (FeatureWrite.vrsInfo
              (max dev.ctx.shadingRateTexelWidth dev.ctx.shadingRateTexelHeight)), []⟩
          else ⟨ret, none, [notSupportedDiag]⟩
      | none => ⟨ret, none, []⟩
  | Feature.ConservativeRasterization => ⟨dev.ctx.extensions.EXT_conservative_rasterization, none, []⟩
  | Feature.VirtualResources => ⟨true, none, []⟩
  | Feature.ComputeQueue => ⟨dev.computeQueue.isSome, none, []⟩
  | Feature.CopyQueue => ⟨dev.copyQueue.isSome, none, []⟩
  | Feature.ConstantBufferRanges => ⟨true, none, []⟩
  | Feature.WaveLaneCountMinMax =>
      if dev.ctx.subgroupSize = 0 then ⟨false, none, []⟩
      else
        match pInfo with
        | some sz =>
            if sz = sizeofWaveLaneCountMinMaxFeatureInfo then
              ⟨true, some (FeatureWrite.waveInfo dev.ctx.subgroupSize dev.ctx.subgroupSize), []⟩
            else ⟨true, none, [notSupportedDiag]⟩
        | none => ⟨true, none, []⟩
  | Feature.HeapDirectlyIndexed => ⟨dev.ctx.extensions.EXT_mutable_descriptor_type, none, []⟩
  | Feature.CooperativeVectorInferencing =>
      ⟨dev.ctx.extensions.NV_cooperative_vector && dev.ctx.coopVecInference, none, []⟩
  | Feature.CooperativeVectorTraining =>
      ⟨dev.ctx.extensions.NV_cooperative_vector && dev.ctx.coopVecTraining, none, []⟩
  | Feature.other _ => ⟨false, none, []⟩

/-- ObjectTypes enumerant VK_Queue (nvrhi header; distinct stand-in value). -/
def ObjectTypes_VK_Queue : Nat := 2
/-- ObjectTypes enumerant VK_Device (nvrhi header; distinct stand-in value). -/
def ObjectTypes_VK_Device : Nat := 1

/-- Outcome of getNativeQueue.  nullDeref marks the path that dereferences an
empty m_Queues slot through a null unique_ptr (undefined behavior in the
source); null is an actual nullptr return value. -/
inductive NativeQueueResult where
  | null
  | handle (h : Nat)
  | nullDeref
deriving DecidableEq, Repr

/-- Device member getNativeQueue (source lines 537-546): returns null for a
foreign object type or an out-of-range queue kind, then unconditionally
dereferences the selected m_Queues slot to fetch its native queue handle. -/
def getNativeQueue (dev : Device) (objectType : Nat) (queue : Nat) : NativeQueueResult :=
  if objectType ≠ ObjectTypes_VK_Queue then NativeQueueResult.null
  else if CommandQueue_Count ≤ queue then NativeQueueResult.null
  else
    match dev.queueSlot queue with
    | some qs => NativeQueueResult.handle qs.vkQueue
    | none => NativeQueueResult.nullDeref

/-- Outcome of the native vkDeviceWaitIdle call seen through the vulkan-hpp
throwing wrapper: success, a thrown DeviceLostError, or some other thrown
error (carrying its native result code). -/
inductive NativeWaitOutcome where
  | success
  | deviceLostError
  | otherError (code : Nat)
deriving DecidableEq, Repr

/-- Device member waitForIdle (source lines 312-322): calls waitIdle inside a
try block whose only handler catches DeviceLostError and converts it to a
false return; success returns true; any other thrown error is not caught and
unwinds to the caller (modelled as the Except error case). -/
def waitForIdle : NativeWaitOutcome → Except Nat Bool
  | NativeWaitOutcome.success => Except.ok true
  | NativeWaitOutcome.deviceLostError => Except.ok false
  | NativeWaitOutcome.otherError code => Except.error code

/-- HeapType enumerant DeviceLocal = 0. -/
def HeapType_DeviceLocal : Nat := 0
/-- HeapType enumerant Upload = 1. -/
def HeapType_Upload : Nat := 1
/-- HeapType enumerant Readback = 2. -/
def HeapType_Readback : Nat := 2

/-- vk MemoryPropertyFlagBits eDeviceLocal. -/
def vkMemDeviceLocal : Nat := 1
/-- vk MemoryPropertyFlagBits eHostVisible. -/
def vkMemHostVisible : Nat := 2
/-- vk MemoryPropertyFlagBits eHostCached. -/
def vkMemHostCached : Nat := 8

/-- vk Result eSuccess. -/
def vkResult_eSuccess : Int := 0

/-- The HeapDesc fields read by createHeap: capacity, heap type and the debug
name used in diagnostics and native-object naming. -/
structure HeapDesc where
  capacity : Nat
  type : Nat
  debugName : String
deriving DecidableEq, Repr

/-- The Heap object produced by createHeap: its stored descriptor, the
managed flag, and whether the debug name was attached to the native
allocation (nameVKObject call at lines 720-723). -/
structure Heap where
  desc : HeapDesc
  managed : Bool
  memoryNamed : Bool
deriving DecidableEq, Repr

/-- Heap object lifetime events along one createHeap call: construction with
new, deletion on the failure path, or transfer into the returned handle. -/
inductive HeapEvent where
  | heapNew
  | heapDeleted
  | heapReturned
deriving DecidableEq, Repr

/-- The observable outcome of one createHeap call: the returned handle (none
models nullptr), the memory-property flags the switch selected (none when the
switch hit the default arm), whether allocateMemory was invoked, the heap
object lifetime events, and the diagnostics emitted. -/
structure CreateHeapResult where
  handle : Option Heap
  requestedMemoryPropertyFlags : Option Nat
  allocationAttempted : Bool
  events : List HeapEvent
  diags : List Diag
deriving DecidableEq, Repr

/-- The part of createHeap after the heap-type switch (source lines 699-725):
construct the Heap, call allocateMemory (its native result is the allocResult
environment parameter), and either delete the heap plus emit the
allocation-failure error and return null, or name the allocation when a debug
name is present and return the owning handle. -/
def createHeapAllocate (allocResult : Int) (d : HeapDesc) (memoryPropertyFlags : Nat) :
    CreateHeapResult :=
  if allocResult ≠ vkResult_eSuccess then
    ⟨none, some memoryPropertyFlags, true,
      [HeapEvent.heapNew, HeapEvent.heapDeleted],
      [⟨MessageSeverity.error, DiagKind.allocationFailure d.debugName allocResult⟩]⟩
  else
    ⟨some ⟨d, true, !d.debugName.isEmpty⟩, some memoryPropertyFlags, true,
      [HeapEvent.heapNew, HeapEvent.heapReturned], []⟩

/-- Device member createHeap (source lines 675-726): the heap-type switch
selects the required memory-property flags (default arm: InvalidEnum
diagnostic and null return before any allocation), then allocation proceeds
via createHeapAllocate. -/
def createHeap (allocResult : Int) (d : HeapDesc) : CreateHeapResult :=
  if d.type = HeapType_DeviceLocal then
    createHeapAllocate allocResult d vkMemDeviceLocal
  else if d.type = HeapType_Upload then
    createHeapAllocate allocResult d vkMemHostVisible
  else if d.type = HeapType_Readback then
    createHeapAllocate allocResult d (vkMemHostVisible ||| vkMemHostCached)
  else
    ⟨none, none, false, [], [invalidEnumDiag]⟩

/-- FormatSupport bit None. -/
def FormatSupport_None : Nat := 0
/-- FormatSupport bit Buffer. -/
def FormatSupport_Buffer : Nat := 1
/-- FormatSupport bit IndexBuffer (bit index 1). -/
def FormatSupport_IndexBuffer : Nat := 2
/-- FormatSupport bit VertexBuffer. -/
def FormatSupport_VertexBuffer : Nat := 4
/-- FormatSupport bit Texture. -/
def FormatSupport_Texture : Nat := 8
/-- FormatSupport bit DepthStencil. -/
def FormatSupport_DepthStencil : Nat := 16
/-- FormatSupport bit RenderTarget. -/
def FormatSupport_RenderTarget : Nat := 32
/-- FormatSupport bit Blendable. -/
def FormatSupport_Blendable : Nat := 64
/-- FormatSupport bit ShaderLoad. -/
def FormatSupport_ShaderLoad : Nat := 128
/-- FormatSupport bit ShaderSample. -/
def FormatSupport_ShaderSample : Nat := 256
/-- FormatSupport bit ShaderUavLoad. -/
def FormatSupport_ShaderUavLoad : Nat := 512
/-- FormatSupport bit ShaderUavStore. -/
def FormatSupport_ShaderUavStore : Nat := 1024
/-- FormatSupport bit ShaderAtomic. -/
def FormatSupport_ShaderAtomic : Nat := 2048

/-- vk FormatFeatureFlagBits eSampledImage. -/
def vkFF_SampledImage : Nat := 1
/-- vk FormatFeatureFlagBits eStorageImage. -/
def vkFF_StorageImage : Nat := 2
/-- vk FormatFeatureFlagBits eStorageImageAtomic. -/
def vkFF_StorageImageAtomic : Nat := 4
/-- vk FormatFeatureFlagBits eUniformTexelBuffer. -/
def vkFF_UniformTexelBuffer : Nat := 8
/-- vk FormatFeatureFlagBits eStorageTexelBuffer. -/
def vkFF_StorageTexelBuffer : Nat := 16
/-- vk FormatFeatureFlagBits eStorageTexelBufferAtomic. -/
def vkFF_StorageTexelBufferAtomic : Nat := 32
/-- vk FormatFeatureFlagBits eVertexBuffer. -/
def vkFF_VertexBuffer : Nat := 64
/-- vk FormatFeatureFlagBits eColorAttachment. -/
def vkFF_ColorAttachment : Nat := 128
/-- vk FormatFeatureFlagBits eColorAttachmentBlend. -/
def vkFF_ColorAttachmentBlend : Nat := 256
/-- vk FormatFeatureFlagBits eDepthStencilAttachment. -/
def vkFF_DepthStencilAttachment : Nat := 512
/-- vk FormatFeatureFlagBits eSampledImageFilterLinear. -/
def vkFF_SampledImageFilterLinear : Nat := 4096

/-- Format enumerant R16_UINT (nvrhi header; distinct stand-in value). -/
def Format_R16_UINT : Nat := 14
/-- Format enumerant R32_UINT (nvrhi header; distinct stand-in value). -/
def Format_R32_UINT : Nat := 28

/-- The native per-format properties returned by getFormatProperties for the
queried format: two feature bitmasks. -/
structure FormatProperties where
  bufferFeatures : Nat
  optimalTilingFeatures : Nat
deriving DecidableEq, Repr

/-- Device member queryFormatSupport (source lines 417-472): sequential OR
accumulation of FormatSupport category bits from the native feature masks,
with the IndexBuffer category keyed only on the format identity. -/
def queryFormatSupport (format : Nat) (props : FormatProperties) : Nat :=
  let r0 := FormatSupport_None
  let r1 := if props.bufferFeatures ≠ 0 then r0 ||| FormatSupport_Buffer else r0
  let r2 := if format = Format_R32_UINT ∨ format = Format_R16_UINT then
      r1 ||| FormatSupport_IndexBuffer else r1
  let r3 := if props.bufferFeatures &&& vkFF_VertexBuffer ≠ 0 then
      r2 ||| FormatSupport_VertexBuffer else r2
  let r4 := if props.optimalTilingFeatures ≠ 0 then r3 ||| FormatSupport_Texture else r3
  let r5 := if props.optimalTilingFeatures &&& vkFF_DepthStencilAttachment ≠ 0 then
      r4 ||| FormatSupport_DepthStencil else r4
  let r6 := if props.optimalTilingFeatures &&& vkFF_ColorAttachment ≠ 0 then
      r5 ||| FormatSupport_RenderTarget else r5
  let r7 := if props.optimalTilingFeatures &&& vkFF_ColorAttachmentBlend ≠ 0 then
      r6 ||| FormatSupport_Blendable else r6
  let r8 := if props.optimalTilingFeatures &&& vkFF_SampledImage ≠ 0 ∨
      props.bufferFeatures &&& vkFF_UniformTexelBuffer ≠ 0 then
      r7 ||| FormatSupport_ShaderLoad else r7
  let r9 := if props.optimalTilingFeatures &&& vkFF_SampledImageFilterLinear ≠ 0 then
      r8 ||| FormatSupport_ShaderSample else r8
  let r10 := if props.optimalTilingFeatures &&& vkFF_StorageImage ≠ 0 ∨
      props.bufferFeatures &&& vkFF_StorageTexelBuffer ≠ 0 then
      (r9 ||| FormatSupport_ShaderUavLoad) ||| FormatSupport_ShaderUavStore else r9
  let r11 := if props.optimalTilingFeatures &&& vkFF_StorageImageAtomic ≠ 0 ∨
      props.bufferFeatures &&& vkFF_StorageTexelBufferAtomic ≠ 0 then
      r10 ||| FormatSupport_ShaderAtomic else r10
  r11

/-- Reduction modulo 2^32, the wraparound of uint32_t arithmetic. -/
def u32 (n : Nat) : Nat := n % 4294967296

/-- The UINT32_MAX sentinel written for packed-tail mips (source line 636). -/
def UINT32_MAX : Nat := 4294967295

/-- One SubresourceTiling record as filled by getTextureTiling. -/
structure SubresourceTiling where
  widthInTiles : Nat
  heightInTiles : Nat
  depthInTiles : Nat
  startTileIndexInOverallResource : Nat
deriving DecidableEq, Repr

/-- The record written for mip i by the loop body at source lines 622-637.
For a standard mip (i below the packed-tail threshold) each axis count is the
uint32 ceiling division of the current extent by the tile extent; the uint32
subtraction in (extent + tile - 1) is expressed as addition of 2^32 - 1
before the modulo so that the wraparound agrees with the machine arithmetic.
For a packed-tail mip the counts are zero and the start index is the
UINT32_MAX sentinel. -/
def subresourceTilingStep (numStandardMips tileWidth tileHeight tileDepth : Nat)
    (i start w h d : Nat) : SubresourceTiling :=
  if i < numStandardMips then
    ⟨u32 (w + tileWidth + UINT32_MAX) / tileWidth,
     u32 (h + tileHeight + UINT32_MAX) / tileHeight,
     u32 (d + tileDepth + UINT32_MAX) / tileDepth,
     start⟩
  else
    ⟨0, 0, 0, UINT32_MAX⟩

/-- The subresource-tilings loop of getTextureTiling (source lines 622-644),
recursing on the remaining iteration count: each step records the tiling for
mip i, then advances the running start-tile accumulator by the uint32 product
of this mip's per-axis counts and halves each extent with clamping to the
tile extent. -/
def subresourceTilingsAux (numStandardMips tileWidth tileHeight tileDepth : Nat) :
    Nat → Nat → Nat → Nat → Nat → Nat → List SubresourceTiling
  | 0, _, _, _, _, _ => []
  | cnt + 1, i, start, w, h, d =>
    let r := subresourceTilingStep numStandardMips tileWidth tileHeight tileDepth i start w h d
    r :: subresourceTilingsAux numStandardMips tileWidth tileHeight tileDepth cnt (i + 1)
      (u32 (start + u32 (u32 (r.widthInTiles * r.heightInTiles) * r.depthInTiles)))
      (max (w / 2) tileWidth) (max (h / 2) tileHeight) (max (d / 2) tileDepth)

/-- The TextureDesc fields read by the subresource-tilings portion of
getTextureTiling: the top-mip extents and the mip count. -/
structure TextureDesc where
  width : Nat
  height : Nat
  depth : Nat
  mipLevels : Nat
deriving DecidableEq, Repr

/-- The subresource-tilings output of Device member getTextureTiling (source
lines 613-645): the requested count is clamped to the mip count of the
texture descriptor, then the loop runs from mip 0 with a zero start-tile
accumulator and the descriptor extents.  numStandardMips is
imageMipTailFirstLod from the native sparse memory requirements and the tile
extents come from the native sparse format properties (both environment
inputs here). -/
def getTextureTilingSubresources (desc : TextureDesc)
    (numStandardMips tileWidth tileHeight tileDepth requestedCount : Nat) :
    List SubresourceTiling :=
  subresourceTilingsAux numStandardMips tileWidth tileHeight tileDepth
    (min requestedCount desc.mipLevels) 0 0 desc.width desc.height desc.depth

/-- The default record used for out-of-range list reads in the statements
below. -/
def zeroTiling : SubresourceTiling := ⟨0, 0, 0, 0⟩

/-- Property: over the reported records, the start indices of consecutive
standard mips (both below the threshold numStandardMips) strictly increase. -/
def standardStartsIncreasing (numStandardMips : Nat) (L : List SubresourceTiling) : Prop :=
  ∀ i, i < min (numStandardMips - 1) (L.length - 1) →
    (L.getD i zeroTiling).startTileIndexInOverallResource <
      (L.getD (i + 1) zeroTiling).startTileIndexInOverallResource

/-- Property: every reported record at or beyond the threshold has zero tile
counts and the UINT32_MAX start sentinel. -/
def tailMipsUnmapped (numStandardMips : Nat) (L : List SubresourceTiling) : Prop :=
  ∀ i, i < L.length → numStandardMips ≤ i →
    L.getD i zeroTiling = ⟨0, 0, 0, UINT32_MAX⟩

/-- Property: for every reported record, adding the product of its tile
counts to its start index stays below 2^32, so the uint32 accumulator does
not wrap. -/
def noTileIndexOverflow (L : List SubresourceTiling) : Prop :=
  ∀ j, j < L.length →
    (L.getD j zeroTiling).startTileIndexInOverallResource +
      (L.getD j zeroTiling).widthInTiles * (L.getD j zeroTiling).heightInTiles *
        (L.getD j zeroTiling).depthInTiles < 4294967296

instance (K : Nat) (L : List SubresourceTiling) :
    Decidable (standardStartsIncreasing K L) := by
  unfold standardStartsIncreasing
  infer_instance

instance (K : Nat) (L : List SubresourceTiling) :
    Decidable (tailMipsUnmapped K L) := by
  unfold tailMipsUnmapped
  infer_instance

instance (L : List SubresourceTiling) :
    Decidable (noTileIndexOverflow L) := by
  unfold noTileIndexOverflow
  infer_instance

/-- Modelled from the spec: Queue submit lives in vulkan-queue.cpp, outside
src/.  Per the spec (sections 3, 4.7 and 8) it returns a per-queue
monotonically increasing submission identifier; it is modelled as
incrementing the queue's counter and returning the new value. -/
def queueSubmit (qs : QueueState) : Nat × QueueState :=
  (qs.lastSubmittedID + 1, ⟨qs.vkQueue, qs.lastSubmittedID + 1⟩)

/-- Device member executeCommandLists (source lines 558-570): dereference the
slot of the execution queue, delegate to the queue's submit, and return the
submission identifier.  The source dereferences the slot without a null
check; the empty-slot case (undefined behavior in the source) is modelled as
none. -/
def executeCommandLists (dev : Device) (executionQueue : Nat) : Option (Nat × Device) :=
  match dev.queueSlot executionQueue with
  | none => none
  | some qs =>
    let r := queueSubmit qs
    some (r.1, dev.setQueueSlot executionQueue (some r.2))

/-- A sequence of executeCommandLists calls: runs the listed queue kinds in
order, collecting (queue kind, returned submission identifier) for each call
that reached a populated slot, and returning the final device state. -/
def runSubmissions (dev : Device) : List Nat → List (Nat × Nat) × Device
  | [] => ([], dev)
  | q :: rest =>
    match executeCommandLists dev q with
    | none => runSubmissions dev rest
    | some (id, dev1) =>
      let r := runSubmissions dev1 rest
      ((q, id) :: r.1, r.2)

/-- The submission identifiers returned on queue kind q, in call order. -/
def idsOf (q : Nat) (log : List (Nat × Nat)) : List Nat :=
  log.filterMap (fun p => if p.1 = q then some p.2 else none)

/-- The submission counter currently stored in the slot of queue kind q
(zero for an empty slot). -/
def counterOf (dev : Device) (q : Nat) : Nat :=
  match dev.queueSlot q with
  | none => 0
  | some qs => qs.lastSubmittedID

/-- The expected output-buffer payload size of each capability: only
VariableRateShading and WaveLaneCountMinMax consume the output buffer in
queryFeatureSupport (source lines 367-379 and 393-404); every other
capability has no payload. -/
def expectedPayloadSize : Feature → Option Nat
  | Feature.VariableRateShading => some sizeofVariableRateShadingFeatureInfo
  | Feature.WaveLaneCountMinMax => some sizeofWaveLaneCountMinMaxFeatureInfo
  | _ => none

/-- A context with every extension flag clear and all cached properties at
their zero defaults. -/
def ctx0 : VulkanContext := {}

/-- A device over ctx0 with no queue slots populated; its cached subgroup
size is zero. -/
def devSub0 : Device := { ctx := ctx0 }

/-- A context whose capability set has the opacity-micromap flag without the
synchronization-2 flag. -/
def ctxOmmNoSync : VulkanContext := { extensions := { EXT_opacity_micromap := true } }

/-- A device over ctxOmmNoSync. -/
def devOmmNoSync : Device := { ctx := ctxOmmNoSync }

/-- The device built from a descriptor populating the Graphics and Compute
queue handles and leaving the Copy (transfer) handle absent. -/
def devGC : Device := mkDevice ctx0 { graphicsQueue := some 7, computeQueue := some 8 }

/-- A device with Graphics and Compute slots populated at distinct counter
values, used to instantiate the submission-identifier statements. -/
def devBoth : Device :=
  { ctx := ctx0, graphicsQueue := some ⟨7, 0⟩, computeQueue := some ⟨8, 5⟩ }

/-- C1: queryFeatureSupport(RayTracingOpacityMicromap) returns true exactly
when both the opacity-micromap and the synchronization-2 extension flags are
set in the capability set, and at construction a micromap flag without the
synchronization-2 flag emits exactly one warning diagnostic. -/
theorem c1_opacityMicromap_requires_sync2 :
    (∀ (dev : Device) (pInfo : Option Nat),
      (queryFeatureSupport dev Feature.RayTracingOpacityMicromap pInfo).ret = true ↔
        (dev.ctx.extensions.EXT_opacity_micromap = true ∧
          dev.ctx.extensions.KHR_synchronization2 = true)) ∧
    (∀ (ctx : VulkanContext) (pipelineCacheOk emptyLayoutOk : Bool),
      ctx.extensions.EXT_opacity_micromap = true →
      ctx.extensions.KHR_synchronization2 = false →
      (constructorDiags ctx pipelineCacheOk emptyLayoutOk).countP
        (fun dg => decide (dg.severity = MessageSeverity.warning)) = 1) := by
  constructor
  · intro dev pInfo
    simp [queryFeatureSupport, Bool.and_eq_true]
  · intro ctx pOk dOk h1 h2
    cases pOk <;> cases dOk <;>
      simp [constructorDiags, h1, h2, List.countP_cons, List.countP_nil]

/-- Witness for C1 at a concrete capability set: micromap set, sync2 clear. -/
theorem c1_opacityMicromap_requires_sync2_witness :
    ((queryFeatureSupport devOmmNoSync Feature.RayTracingOpacityMicromap none).ret = true ↔
      (devOmmNoSync.ctx.extensions.EXT_opacity_micromap = true ∧
        devOmmNoSync.ctx.extensions.KHR_synchronization2 = true)) ∧
    (constructorDiags ctxOmmNoSync true true).countP
      (fun dg => decide (dg.severity = MessageSeverity.warning)) = 1 :=
  ⟨c1_opacityMicromap_requires_sync2.1 devOmmNoSync none,
    c1_opacityMicromap_requires_sync2.2 ctxOmmNoSync true true rfl rfl⟩

/-- C2 (at the failing input): with Graphics and Compute populated and Copy
absent, queryFeatureSupport reports ComputeQueue true and CopyQueue false,
but getNativeQueue(VK_Queue, Copy) dereferences the empty Copy slot (a null
unique_ptr dereference in the source) instead of returning null. -/
theorem c2_absent_copy_slot_is_dereferenced :
    (queryFeatureSupport devGC Feature.ComputeQueue none).ret = true ∧
    (queryFeatureSupport devGC Feature.CopyQueue none).ret = false ∧
    getNativeQueue devGC ObjectTypes_VK_Queue CommandQueue_Copy =
      NativeQueueResult.nullDeref := by
  decide

/-- C9: waitForIdle has exactly two outcomes over the native wait results the
source anticipates: it returns true on success and false on a caught
DeviceLostError, and in neither case does an unwind reach the caller. -/
theorem c9_waitForIdle_success_or_deviceLoss :
    ∀ o : NativeWaitOutcome, (∀ code, o ≠ NativeWaitOutcome.otherError code) →
      (waitForIdle o).isOk = true ∧
      (waitForIdle o = Except.ok true ↔ o = NativeWaitOutcome.success) ∧
      (waitForIdle o = Except.ok false ↔ o = NativeWaitOutcome.deviceLostError) := by
  intro o h
  cases o with
  | success => exact ⟨rfl, by simp [waitForIdle], by simp [waitForIdle]⟩
  | deviceLostError => exact ⟨rfl, by simp [waitForIdle], by simp [waitForIdle]⟩
  | otherError code => exact absurd rfl (h code)

/-- Witness for C9 at the device-loss outcome. -/
theorem c9_waitForIdle_success_or_deviceLoss_witness :
    (waitForIdle NativeWaitOutcome.deviceLostError).isOk = true ∧
    (waitForIdle NativeWaitOutcome.deviceLostError = Except.ok true ↔
      NativeWaitOutcome.deviceLostError = NativeWaitOutcome.success) ∧
    (waitForIdle NativeWaitOutcome.deviceLostError = Except.ok false ↔
      NativeWaitOutcome.deviceLostError = NativeWaitOutcome.deviceLostError) :=
  c9_waitForIdle_success_or_deviceLoss NativeWaitOutcome.deviceLostError
    (fun _ h => NativeWaitOutcome.noConfusion h)

/-- C10: with a zero cached subgroup size, queryFeatureSupport for
WaveLaneCountMinMax returns false, writes nothing through the output buffer
(whatever buffer is supplied), and emits no diagnostic. -/
theorem c10_waveLane_zero_subgroup_untouched :
    ∀ (dev : Device) (pInfo : Option Nat), dev.ctx.subgroupSize = 0 →
      queryFeatureSupport dev Feature.WaveLaneCountMinMax pInfo =
        ⟨false, none, []⟩ := by
  intro dev pInfo h
  simp [queryFeatureSupport, h]

/-- Witness for C10 at a zero-subgroup device with a non-null buffer of the
correct payload size. -/
theorem c10_waveLane_zero_subgroup_untouched_witness :
    sizeofWaveLaneCountMinMaxFeatureInfo = 8 ∧
    queryFeatureSupport devSub0 Feature.WaveLaneCountMinMax (some 8) =
      ⟨false, none, []⟩ :=
  ⟨rfl, c10_waveLane_zero_subgroup_untouched devSub0 (some 8) rfl⟩

/-- C5: createHeap maps DeviceLocal to device-local, Upload to host-visible
and Readback to host-visible plus host-cached memory-property flags, and for
any heap type outside these three it returns null with exactly one
InvalidEnum diagnostic and no allocation attempt. -/
theorem c5_createHeap_type_mapping :
    (∀ (r : Int) (c : Nat) (n : String),
      (createHeap r ⟨c, HeapType_DeviceLocal, n⟩).requestedMemoryPropertyFlags =
          some vkMemDeviceLocal ∧
      (createHeap r ⟨c, HeapType_Upload, n⟩).requestedMemoryPropertyFlags =
          some vkMemHostVisible ∧
      (createHeap r ⟨c, HeapType_Readback, n⟩).requestedMemoryPropertyFlags =
          some (vkMemHostVisible ||| vkMemHostCached)) ∧
    (∀ (r : Int) (c : Nat) (n : String) (t : Nat), HeapType_Readback < t →
      createHeap r ⟨c, t, n⟩ = ⟨none, none, false, [], [invalidEnumDiag]⟩) := by
  constructor
  · intro r c n
    by_cases hr : r = vkResult_eSuccess <;>
      refine ⟨?_, ?_, ?_⟩ <;>
        simp [createHeap, createHeapAllocate, hr, HeapType_DeviceLocal, HeapType_Upload,
          HeapType_Readback]
  · intro r c n t ht
    simp only [HeapType_Readback] at ht
    have h0 : t ≠ HeapType_DeviceLocal := by simp only [HeapType_DeviceLocal]; omega
    have h1 : t ≠ HeapType_Upload := by simp only [HeapType_Upload]; omega
    have h2 : t ≠ HeapType_Readback := by simp only [HeapType_Readback]; omega
    simp [createHeap, h0, h1, h2]

/-- Witness for C5 with an out-of-vocabulary heap type. -/
theorem c5_createHeap_type_mapping_witness :
    HeapType_Readback < 7 ∧
    createHeap 0 ⟨4096, 7, "hp"⟩ = ⟨none, none, false, [], [invalidEnumDiag]⟩ :=
  ⟨by decide, c5_createHeap_type_mapping.2 0 4096 "hp" 7 (by decide)⟩

/-- C6: for a recognized heap type, a failing native allocation deletes the
partially constructed heap, emits exactly one AllocationFailure diagnostic
carrying the debug name and the native result code, and returns null; a
successful allocation returns an owning handle whose stored descriptor is
the request. -/
theorem c6_createHeap_allocation_outcome :
    ∀ (r : Int) (d : HeapDesc),
      (d.type = HeapType_DeviceLocal ∨ d.type = HeapType_Upload ∨
        d.type = HeapType_Readback) →
      (r ≠ vkResult_eSuccess →
        (createHeap r d).handle = none ∧
        (createHeap r d).diags =
          [⟨MessageSeverity.error, DiagKind.allocationFailure d.debugName r⟩] ∧
        (createHeap r d).events = [HeapEvent.heapNew, HeapEvent.heapDeleted]) ∧
      (r = vkResult_eSuccess →
        (createHeap r d).handle = some ⟨d, true, !d.debugName.isEmpty⟩ ∧
        (createHeap r d).events = [HeapEvent.heapNew, HeapEvent.heapReturned] ∧
        (createHeap r d).diags = []) := by
  intro r d htype
  obtain ⟨c, t, n⟩ := d
  rcases htype with h | h | h <;>
    · simp only at h
      subst h
      constructor
      · intro hr
        simp [createHeap, createHeapAllocate, HeapType_DeviceLocal, HeapType_Upload,
          HeapType_Readback, hr]
      · intro hr
        subst hr
        simp [createHeap, createHeapAllocate, HeapType_DeviceLocal, HeapType_Upload,
          HeapType_Readback]

/-- Witness for C6: an Upload heap whose allocation fails with a concrete
native result code, and the same heap allocated successfully. -/
theorem c6_createHeap_allocation_outcome_witness :
    ((⟨4096, HeapType_Upload, "hp"⟩ : HeapDesc).type = HeapType_DeviceLocal ∨
      (⟨4096, HeapType_Upload, "hp"⟩ : HeapDesc).type = HeapType_Upload ∨
      (⟨4096, HeapType_Upload, "hp"⟩ : HeapDesc).type = HeapType_Readback) ∧
    ((-2 : Int) ≠ vkResult_eSuccess) ∧
    ((createHeap (-2) ⟨4096, HeapType_Upload, "hp"⟩).handle = none ∧
      (createHeap (-2) ⟨4096, HeapType_Upload, "hp"⟩).diags =
        [⟨MessageSeverity.error, DiagKind.allocationFailure "hp" (-2)⟩] ∧
      (createHeap (-2) ⟨4096, HeapType_Upload, "hp"⟩).events =
        [HeapEvent.heapNew, HeapEvent.heapDeleted]) ∧
    ((createHeap 0 ⟨4096, HeapType_Upload, "hp"⟩).handle =
        some ⟨⟨4096, HeapType_Upload, "hp"⟩, true,
          !(⟨4096, HeapType_Upload, "hp"⟩ : HeapDesc).debugName.isEmpty⟩ ∧
      (createHeap 0 ⟨4096, HeapType_Upload, "hp"⟩).events =
        [HeapEvent.heapNew, HeapEvent.heapReturned] ∧
      (createHeap 0 ⟨4096, HeapType_Upload, "hp"⟩).diags = []) :=
  ⟨Or.inr (Or.inl rfl), by decide,
    (c6_createHeap_allocation_outcome (-2) ⟨4096, HeapType_Upload, "hp"⟩
      (Or.inr (Or.inl rfl))).1 (by decide),
    (c6_createHeap_allocation_outcome 0 ⟨4096, HeapType_Upload, "hp"⟩
      (Or.inr (Or.inl rfl))).2 rfl⟩

/-- C3 counterexample: a WaveLaneCountMinMax query on a zero-subgroup device
with a non-null output buffer of mismatched size (1 instead of the expected
8) emits no diagnostic at all, because the source returns false before
examining the buffer. -/
theorem c3_mismatch_without_diag_counterexample :
    expectedPayloadSize Feature.WaveLaneCountMinMax = some 8 ∧ (1 : Nat) ≠ 8 ∧
    devSub0.ctx.subgroupSize = 0 ∧
    (queryFeatureSupport devSub0 Feature.WaveLaneCountMinMax (some 1)).diags = [] := by
  decide

/-- C3 amended: for a capability with an expected payload size, a non-null
buffer of mismatched size reports exactly one UnsupportedOperation diagnostic
unless the WaveLaneCountMinMax support check already failed on a zero
subgroup size before the buffer is examined; and for every capability the
presence or size of the buffer never changes the returned boolean. -/
theorem c3_size_mismatch_diag_and_stable_bool :
    (∀ (dev : Device) (f : Feature) (sz p : Nat),
      expectedPayloadSize f = some p → sz ≠ p →
      ¬(f = Feature.WaveLaneCountMinMax ∧ dev.ctx.subgroupSize = 0) →
      (queryFeatureSupport dev f (some sz)).diags = [notSupportedDiag] ∧
      (queryFeatureSupport dev f (some sz)).ret = (queryFeatureSupport dev f none).ret) ∧
    (∀ (dev : Device) (f : Feature) (sz : Nat),
      (queryFeatureSupport dev f (some sz)).ret = (queryFeatureSupport dev f none).ret) := by
  constructor
  · intro dev f sz p hp hsz hnz
    cases f <;> simp only [expectedPayloadSize, Option.some.injEq, reduceCtorEq] at hp
    · -- VariableRateShading
      subst hp
      simp only [sizeofVariableRateShadingFeatureInfo] at hsz
      simp [queryFeatureSupport, hsz, sizeofVariableRateShadingFeatureInfo]
    · -- WaveLaneCountMinMax
      subst hp
      simp only [sizeofWaveLaneCountMinMaxFeatureInfo] at hsz
      rcases h0 : dev.ctx.subgroupSize with _ | k
      · exact absurd ⟨rfl, h0⟩ hnz
      · simp [queryFeatureSupport, hsz, h0, sizeofWaveLaneCountMinMaxFeatureInfo]
  · intro dev f sz
    cases f <;> simp only [queryFeatureSupport]
    · split <;> rfl
    · split
      · rfl
      · split <;> rfl

/-- Witness for the amended C3: a VariableRateShading query with a buffer of
size 5 against the expected payload size 4. -/
theorem c3_size_mismatch_diag_and_stable_bool_witness :
    expectedPayloadSize Feature.VariableRateShading = some 4 ∧ (5 : Nat) ≠ 4 ∧
    ¬(Feature.VariableRateShading = Feature.WaveLaneCountMinMax ∧
        devSub0.ctx.subgroupSize = 0) ∧
    ((queryFeatureSupport devSub0 Feature.VariableRateShading (some 5)).diags =
        [notSupportedDiag] ∧
      (queryFeatureSupport devSub0 Feature.VariableRateShading (some 5)).ret =
        (queryFeatureSupport devSub0 Feature.VariableRateShading none).ret) :=
  ⟨rfl, by decide, by decide,
    c3_size_mismatch_diag_and_stable_bool.1 devSub0 Feature.VariableRateShading 5 4
      rfl (by decide) (by decide)⟩

/-- C7: queryFormatSupport reports the IndexBuffer usage category exactly for
the two designated integer formats, whatever feature flags the native
per-format query reports. -/
theorem c7_indexBuffer_iff_designated_formats :
    ∀ (format : Nat) (props : FormatProperties),
      ((queryFormatSupport format props).testBit 1 = true ↔
        (format = Format_R32_UINT ∨ format = Format_R16_UINT)) := by
  intro f props
  have hor : ∀ (p : Prop) ( _inst : Decidable p) (a c : Nat),
      (if p then a ||| c else a).testBit 1 = (a.testBit 1 || (decide p && c.testBit 1)) := by
    intro p _inst a c
    by_cases h : p <;> simp [h, Nat.testBit_lor]
  have hor2 : ∀ (p : Prop) ( _inst : Decidable p) (a c1 c2 : Nat),
      (if p then (a ||| c1) ||| c2 else a).testBit 1 =
        (a.testBit 1 || (decide p && (c1.testBit 1 || c2.testBit 1))) := by
    intro p _inst a c1 c2
    by_cases h : p <;> simp [h, Nat.testBit_lor, Bool.or_assoc]
  have hc0 : FormatSupport_None.testBit 1 = false := by decide
  have hc1 : FormatSupport_Buffer.testBit 1 = false := by decide
  have hc2 : FormatSupport_IndexBuffer.testBit 1 = true := by decide
  have hc3 : FormatSupport_VertexBuffer.testBit 1 = false := by decide
  have hc4 : FormatSupport_Texture.testBit 1 = false := by decide
  have hc5 : FormatSupport_DepthStencil.testBit 1 = false := by decide
  have hc6 : FormatSupport_RenderTarget.testBit 1 = false := by decide
  have hc7 : FormatSupport_Blendable.testBit 1 = false := by decide
  have hc8 : FormatSupport_ShaderLoad.testBit 1 = false := by decide
  have hc9 : FormatSupport_ShaderSample.testBit 1 = false := by decide
  have hc10 : FormatSupport_ShaderUavLoad.testBit 1 = false := by decide
  have hc11 : FormatSupport_ShaderUavStore.testBit 1 = false := by decide
  have hc12 : FormatSupport_ShaderAtomic.testBit 1 = false := by decide
  simp only [queryFormatSupport, hor2, hor, hc0, hc1, hc2, hc3, hc4, hc5, hc6, hc7, hc8,
    hc9, hc10, hc11, hc12, Bool.and_false, Bool.or_false, Bool.and_true, Bool.false_or]
  simp [decide_eq_true_iff]

/-- Reading a slot after writing a slot of a different kind leaves it
unchanged. -/
theorem queueSlot_setQueueSlot_ne (dev : Device) (q qq : Nat) (s : Option QueueState)
    (h : qq ≠ q) : (dev.setQueueSlot q s).queueSlot qq = dev.queueSlot qq := by
  simp only [Device.setQueueSlot, Device.queueSlot, CommandQueue_Graphics,
    CommandQueue_Compute, CommandQueue_Copy]
  split_ifs <;> simp_all

/-- Reading a slot just written with a valid kind returns the written
value. -/
theorem queueSlot_setQueueSlot_self (dev : Device) (q : Nat) (s : Option QueueState)
    (h : q < CommandQueue_Count) : (dev.setQueueSlot q s).queueSlot q = s := by
  simp only [CommandQueue_Count] at h
  interval_cases q <;>
    simp [Device.setQueueSlot, Device.queueSlot, CommandQueue_Graphics,
      CommandQueue_Compute, CommandQueue_Copy]

/-- A populated slot only exists at a valid queue kind. -/
theorem queueSlot_some_lt (dev : Device) (q : Nat) (qs : QueueState)
    (h : dev.queueSlot q = some qs) : q < CommandQueue_Count := by
  simp only [Device.queueSlot, CommandQueue_Graphics, CommandQueue_Compute,
    CommandQueue_Copy] at h
  simp only [CommandQueue_Count]
  split_ifs at h <;> simp_all

/-- Anatomy of a successful executeCommandLists call: the slot was populated,
the returned identifier is the stored counter plus one, and the new device
stores the incremented counter in that slot. -/
theorem executeCommandLists_some_spec (dev : Device) (q id : Nat) (dev1 : Device)
    (hex : executeCommandLists dev q = some (id, dev1)) :
    ∃ qs, dev.queueSlot q = some qs ∧ id = qs.lastSubmittedID + 1 ∧
      dev1 = dev.setQueueSlot q (some ⟨qs.vkQueue, id⟩) := by
  cases hslot : dev.queueSlot q with
  | none => simp [executeCommandLists, hslot] at hex
  | some qs =>
    simp only [executeCommandLists, hslot, queueSubmit, Option.some.injEq, Prod.mk.injEq] at hex
    obtain ⟨h1, h2⟩ := hex
    subst h1
    exact ⟨qs, rfl, rfl, h2.symm⟩

/-- Unfolding idsOf over a log entry of the tracked queue kind. -/
theorem idsOf_cons_self (q b : Nat) (l : List (Nat × Nat)) :
    idsOf q ((q, b) :: l) = b :: idsOf q l := by
  simp [idsOf, List.filterMap_cons]

/-- Unfolding idsOf over a log entry of a different queue kind. -/
theorem idsOf_cons_ne {q a : Nat} (h : a ≠ q) (b : Nat) (l : List (Nat × Nat)) :
    idsOf q ((a, b) :: l) = idsOf q l := by
  simp [idsOf, List.filterMap_cons, h]

/-- The per-queue counter strictly bounds every identifier the remaining
trace returns on that queue, and those identifiers are strictly
increasing. -/
theorem runSubmissions_ids_invariant (ops : List Nat) (dev : Device) (q : Nat) :
    (∀ id ∈ idsOf q (runSubmissions dev ops).1, counterOf dev q < id) ∧
    List.Chain' (· < ·) (idsOf q (runSubmissions dev ops).1) := by
  induction ops generalizing dev with
  | nil => simp [runSubmissions, idsOf]
  | cons o rest ih =>
    cases hex : executeCommandLists dev o with
    | none =>
      simpa [runSubmissions, hex] using ih dev
    | some pair =>
      obtain ⟨id, dev1⟩ := pair
      obtain ⟨qs, hslot, hid, hdev1⟩ := executeCommandLists_some_spec dev o id dev1 hex
      have hlt3 : o < CommandQueue_Count := queueSlot_some_lt dev o qs hslot
      have hcounter : counterOf dev o = qs.lastSubmittedID := by
        simp [counterOf, hslot]
      have hcounter1 : counterOf dev1 o = id := by
        rw [hdev1]
        simp [counterOf, queueSlot_setQueueSlot_self dev o _ hlt3]
      by_cases hq : o = q
      · subst hq
        have hrest := ih dev1
        simp only [runSubmissions, hex, idsOf_cons_self]
        constructor
        · intro x hx
          rcases List.mem_cons.mp hx with hx | hx
          · subst hx; omega
          · have := hrest.1 x hx
            omega
        · rw [List.chain'_cons']
          refine ⟨?_, hrest.2⟩
          intro b hb
          have hbmem : b ∈ idsOf o (runSubmissions dev1 rest).1 :=
            List.mem_of_mem_head? hb
          have := hrest.1 b hbmem
          omega
      · have hcq : counterOf dev1 q = counterOf dev q := by
          rw [hdev1]
          simp [counterOf, queueSlot_setQueueSlot_ne dev o q _ (fun hh => hq hh.symm)]
        have hrest := ih dev1
        simp only [runSubmissions, hex, idsOf_cons_ne hq]
        rw [hcq] at hrest
        exact hrest

/-- C8: over any sequence of executeCommandLists calls, the submission
identifiers returned on one queue kind are strictly increasing call over
call, and a call on one queue kind leaves the slot (and hence the counter) of
every other queue kind unchanged. -/
theorem c8_submission_ids_per_queue :
    (∀ (dev : Device) (ops : List Nat) (q : Nat),
      List.Chain' (· < ·) (idsOf q (runSubmissions dev ops).1)) ∧
    (∀ (dev : Device) (q id : Nat) (dev1 : Device) (qq : Nat),
      executeCommandLists dev q = some (id, dev1) → qq ≠ q →
      dev1.queueSlot qq = dev.queueSlot qq) := by
  constructor
  · intro dev ops q
    exact (runSubmissions_ids_invariant ops dev q).2
  · intro dev q id dev1 qq hex hne
    obtain ⟨qs, _, _, hdev1⟩ := executeCommandLists_some_spec dev q id dev1 hex
    rw [hdev1]
    exact queueSlot_setQueueSlot_ne dev q qq _ hne

/-- Witness for C8: a device with Graphics counter 0 and Compute counter 5; a
Compute submission returns identifier 6 and leaves the Graphics slot
untouched, and the identifiers of an interleaved trace are increasing. -/
theorem c8_submission_ids_per_queue_witness :
    executeCommandLists devBoth CommandQueue_Compute =
      some (6, { ctx := ctx0, graphicsQueue := some ⟨7, 0⟩, computeQueue := some ⟨8, 6⟩ }) ∧
    CommandQueue_Graphics ≠ CommandQueue_Compute ∧
    ({ ctx := ctx0, graphicsQueue := some ⟨7, 0⟩,
        computeQueue := some ⟨8, 6⟩ } : Device).queueSlot CommandQueue_Graphics =
      devBoth.queueSlot CommandQueue_Graphics ∧
    List.Chain' (· < ·)
      (idsOf CommandQueue_Compute (runSubmissions devBoth
        [CommandQueue_Compute, CommandQueue_Graphics, CommandQueue_Compute]).1) :=
  ⟨by decide, by decide,
    c8_submission_ids_per_queue.2 devBoth CommandQueue_Compute 6
      { ctx := ctx0, graphicsQueue := some ⟨7, 0⟩, computeQueue := some ⟨8, 6⟩ }
      CommandQueue_Graphics (by decide) (by decide),
    c8_submission_ids_per_queue.1 devBoth
      [CommandQueue_Compute, CommandQueue_Graphics, CommandQueue_Compute]
      CommandQueue_Compute⟩

/-- The loop reports exactly the requested number of records. -/
theorem subresourceTilingsAux_length (K tw th td : Nat) :
    ∀ (cnt i start w h d : Nat),
      (subresourceTilingsAux K tw th td cnt i start w h d).length = cnt := by
  intro cnt
  induction cnt with
  | zero => intro i start w h d; simp [subresourceTilingsAux]
  | succ cnt ih =>
    intro i start w h d
    simp [subresourceTilingsAux, ih]

/-- Every record the loop reports at or beyond the packed-tail threshold has
zero counts and the UINT32_MAX start sentinel. -/
theorem subresourceTilingsAux_getD_tail (K tw th td : Nat) :
    ∀ (cnt i start w h d j : Nat), j < cnt → K ≤ i + j →
      (subresourceTilingsAux K tw th td cnt i start w h d).getD j zeroTiling =
        ⟨0, 0, 0, UINT32_MAX⟩ := by
  intro cnt
  induction cnt with
  | zero => intro i start w h d j hj _; omega
  | succ cnt ih =>
    intro i start w h d j hj hK
    cases j with
    | zero =>
      have hnot : ¬ i < K := by omega
      simp [subresourceTilingsAux, subresourceTilingStep, hnot]
    | succ j =>
      simp only [subresourceTilingsAux, List.getD_cons_succ]
      exact ih _ _ _ _ _ j (by omega) (by omega)

/-- Under the machine-representable bounds, the uint32 ceiling division of a
positive extent by a positive tile extent is positive. -/
theorem ceilDiv_u32_pos (w tw : Nat) (hw : 0 < w) (hw31 : w < 2 ^ 31)
    (htw : 0 < tw) (htw31 : tw < 2 ^ 31) :
    0 < u32 (w + tw + UINT32_MAX) / tw := by
  have hlt : w + tw - 1 < 4294967296 := by omega
  have heq : u32 (w + tw + UINT32_MAX) = w + tw - 1 := by
    have hsplit : w + tw + UINT32_MAX = (w + tw - 1) + 4294967296 := by
      simp only [UINT32_MAX]; omega
    simp only [u32, hsplit, Nat.add_mod_right]
    exact Nat.mod_eq_of_lt hlt
  rw [heq]
  exact (Nat.one_le_div_iff htw).mpr (by omega)

/-- Strict growth of the start-tile accumulator between two consecutive
standard mips, when the accumulator does not wrap. -/
theorem subresourceTilingsAux_start_lt (K tw th td : Nat)
    (htw : 0 < tw) (htw31 : tw < 2 ^ 31) (hth : 0 < th) (hth31 : th < 2 ^ 31)
    (htd : 0 < td) (htd31 : td < 2 ^ 31) :
    ∀ (cnt i start w h d : Nat), 0 < w → w < 2 ^ 31 → 0 < h → h < 2 ^ 31 →
      0 < d → d < 2 ^ 31 →
      (∀ j, j < cnt →
        ((subresourceTilingsAux K tw th td cnt i start w h d).getD j
            zeroTiling).startTileIndexInOverallResource +
          ((subresourceTilingsAux K tw th td cnt i start w h d).getD j
            zeroTiling).widthInTiles *
          ((subresourceTilingsAux K tw th td cnt i start w h d).getD j
            zeroTiling).heightInTiles *
          ((subresourceTilingsAux K tw th td cnt i start w h d).getD j
            zeroTiling).depthInTiles < 4294967296) →
      ∀ j, j + 1 < cnt → i + j + 1 < K →
        ((subresourceTilingsAux K tw th td cnt i start w h d).getD j
            zeroTiling).startTileIndexInOverallResource <
          ((subresourceTilingsAux K tw th td cnt i start w h d).getD (j + 1)
            zeroTiling).startTileIndexInOverallResource := by
  intro cnt
  induction cnt with
  | zero => intro i start w h d _ _ _ _ _ _ _ j hj _; omega
  | succ cnt ih =>
    intro i start w h d hw hw31 hh hh31 hd hd31 hov j hj hjK
    cases j with
    | zero =>
      obtain ⟨cntp, rfl⟩ : ∃ cntp, cnt = cntp + 1 := ⟨cnt - 1, by omega⟩
      have hiK : i < K := by omega
      have hiK1 : i + 1 < K := by omega
      have h0 := hov 0 (by omega)
      simp only [subresourceTilingsAux, List.getD_cons_zero, List.getD_cons_succ,
        subresourceTilingStep, hiK, hiK1, if_true] at h0 ⊢
      set a := u32 (w + tw + UINT32_MAX) / tw with hadef
      set b := u32 (h + th + UINT32_MAX) / th with hbdef
      set c := u32 (d + td + UINT32_MAX) / td with hcdef
      have hA : 0 < a := ceilDiv_u32_pos w tw hw hw31 htw htw31
      have hB : 0 < b := ceilDiv_u32_pos h th hh hh31 hth hth31
      have hC : 0 < c := ceilDiv_u32_pos d td hd hd31 htd htd31
      have hc32 : a * b * c < 4294967296 := by omega
      have hab32 : a * b < 4294967296 :=
        lt_of_le_of_lt (Nat.le_mul_of_pos_right _ hC) hc32
      have habc : 0 < a * b * c := Nat.mul_pos (Nat.mul_pos hA hB) hC
      simp only [u32]
      rw [Nat.mod_eq_of_lt hab32, Nat.mod_eq_of_lt hc32,
        Nat.mod_eq_of_lt (show start + a * b * c < 4294967296 by omega)]
      omega
    | succ j =>
      simp only [subresourceTilingsAux, List.getD_cons_succ]
      apply ih
      · exact lt_of_lt_of_le htw (le_max_right _ _)
      · exact max_lt (by omega) htw31
      · exact lt_of_lt_of_le hth (le_max_right _ _)
      · exact max_lt (by omega) hth31
      · exact lt_of_lt_of_le htd (le_max_right _ _)
      · exact max_lt (by omega) htd31
      · intro jj hjj
        have := hov (jj + 1) (by omega)
        simpa only [subresourceTilingsAux, List.getD_cons_succ] using this
      · omega
      · omega

/-- C4 counterexample: a 65536 by 65536 texture with two standard mips and a
1x1x1 tile granularity makes the first mip's uint32 tile-count product
(65536 * 65536) wrap to zero, so the reported start index of mip 1 equals
that of mip 0 and the start indices of the standard mips are not strictly
increasing. -/
theorem c4_tiling_not_strictly_increasing_counterexample :
    (getTextureTilingSubresources ⟨65536, 65536, 1, 2⟩ 2 1 1 1 2).length = 2 ∧
    ((getTextureTilingSubresources ⟨65536, 65536, 1, 2⟩ 2 1 1 1 2).getD 0
        zeroTiling).startTileIndexInOverallResource = 0 ∧
    ((getTextureTilingSubresources ⟨65536, 65536, 1, 2⟩ 2 1 1 1 2).getD 1
        zeroTiling).startTileIndexInOverallResource = 0 ∧
    ¬ standardStartsIncreasing 2
        (getTextureTilingSubresources ⟨65536, 65536, 1, 2⟩ 2 1 1 1 2) := by
  decide

/-- C4 amended: for positive machine-representable extents and tile
granularities, and provided the running uint32 start-tile accumulator never
wraps, the start indices reported for consecutive standard mips strictly
increase (each advancing by the product of the per-axis ceiling-division
tile counts), and every mip at or beyond the standard-mip threshold reports
zero tile counts and the UINT32_MAX sentinel start index. -/
theorem c4_tiling_monotone_and_tail (w h d K tw th td N M : Nat)
    (hw : 0 < w) (hw31 : w < 2 ^ 31) (hh : 0 < h) (hh31 : h < 2 ^ 31)
    (hd : 0 < d) (hd31 : d < 2 ^ 31)
    (htw : 0 < tw) (htw31 : tw < 2 ^ 31) (hth : 0 < th) (hth31 : th < 2 ^ 31)
    (htd : 0 < td) (htd31 : td < 2 ^ 31)
    (hov : noTileIndexOverflow (getTextureTilingSubresources ⟨w, h, d, M⟩ K tw th td N)) :
    standardStartsIncreasing K (getTextureTilingSubresources ⟨w, h, d, M⟩ K tw th td N) ∧
    tailMipsUnmapped K (getTextureTilingSubresources ⟨w, h, d, M⟩ K tw th td N) := by
  have hunf : getTextureTilingSubresources ⟨w, h, d, M⟩ K tw th td N =
      subresourceTilingsAux K tw th td (min N M) 0 0 w h d := rfl
  rw [hunf] at hov ⊢
  have hlen := subresourceTilingsAux_length K tw th td (min N M) 0 0 w h d
  simp only [noTileIndexOverflow, hlen] at hov
  constructor
  · intro i hi
    rw [hlen] at hi
    refine subresourceTilingsAux_start_lt K tw th td htw htw31 hth hth31 htd htd31
      (min N M) 0 0 w h d hw hw31 hh hh31 hd hd31
      (fun jj hjj => hov jj hjj) i (by omega) (by omega)
  · intro i hilen hK
    rw [hlen] at hilen
    exact subresourceTilingsAux_getD_tail K tw th td (min N M) 0 0 w h d i hilen
      (by omega)

/-- Witness for the amended C4: a 4x4x1 texture with two standard mips out of
three, tile granularity 1x1x1, no accumulator overflow. -/
theorem c4_tiling_monotone_and_tail_witness :
    noTileIndexOverflow (getTextureTilingSubresources ⟨4, 4, 1, 3⟩ 2 1 1 1 3) ∧
    (standardStartsIncreasing 2 (getTextureTilingSubresources ⟨4, 4, 1, 3⟩ 2 1 1 1 3) ∧
      tailMipsUnmapped 2 (getTextureTilingSubresources ⟨4, 4, 1, 3⟩ 2 1 1 1 3)) :=
  ⟨by decide,
    c4_tiling_monotone_and_tail 4 4 1 2 1 1 1 3 3
      (by decide) (by decide) (by decide) (by decide) (by decide) (by decide)
      (by decide) (by decide) (by decide) (by decide) (by decide) (by decide)
      (by decide)⟩
